import Mathlib

set_option maxHeartbeats 1000000

/-!
Verification development for the weather-widget landing page scripts.

The repository ships three variants of the page logic: a class-based script
(the first document of src/main.js, with WeatherController,
IframePreviewController and SectionObserver), an inline script (the second
document of src/main.js, with loadUrlInPreview and an object-literal
weather controller), and a further class-based variant in
src/unnamed/part_000. All three are embedded below. DOM class lists are
modelled as duplicate-free lists of strings, console and alert output as an
explicit message trace, and the browser URL constructor by a computable
parser restricted to the behaviour the scripts rely on.
-/

/-- Observable output of the scripts: console logging and the blocking
alert dialog shown to the user. -/
inductive Msg where
  | consoleLog (text : String)
  | consoleError (text : String)
  | alert (text : String)
deriving DecidableEq

/-- True exactly for output shown to the user in the page (the alert
dialog); console output goes to the developer console. -/
def Msg.isUserVisible : Msg → Bool
  | .alert _ => true
  | _ => false

/-- Model of DOMTokenList.add: appends the class when it is absent. -/
def addClass (cs : List String) (c : String) : List String :=
  if c ∈ cs then cs else cs ++ [c]

/-- Model of DOMTokenList.remove: drops every occurrence of the class. -/
def removeClass (cs : List String) (c : String) : List String :=
  cs.filter (fun x => x ≠ c)

/-- State of the class-based WeatherController of main.js (lines 12-81):
the overlay and controls element ids, the keys of the weatherEffects map
(the data-weather attributes discovered under the overlay), the
currentWeather field, and the effect keys whose element currently carries
the CSS class active. -/
structure WeatherCtl where
  overlay : String
  controls : String
  eff : List String
  currentWeather : String
  active : List String
deriving DecidableEq

/-- Model of WeatherController.setWeather (main.js lines 51-73): a no-op
when the requested mode equals currentWeather; otherwise the active class
is removed from the current effect element (when the map has one), added
to the new effect element (when the map has one), currentWeather is
updated, and for the mode clear every effect element then loses the active
class. -/
def setWeather (s : WeatherCtl) (weather : String) : WeatherCtl :=
  if s.currentWeather = weather then s
  else
    let a1 := if s.currentWeather ∈ s.eff then removeClass s.active s.currentWeather else s.active
    let a2 := if weather ∈ s.eff then addClass a1 weather else a1
    let a3 := if weather = "clear" then [] else a2
    { s with currentWeather := weather, active := a3 }

/-- Mode m is visually active in the class-based controller: for clear
this is the no-effect state, otherwise the effect element of m carries the
class active. -/
def wActive (s : WeatherCtl) (m : String) : Prop :=
  if m = "clear" then s.active = [] else m ∈ s.active

/-- Every key carrying active names the current mode and is a key of the
effects map. -/
def wInv (s : WeatherCtl) : Prop :=
  ∀ k, k ∈ s.active → k = s.currentWeather ∧ k ∈ s.eff

/-- State of the object-literal weather controller in the second script of
main.js (lines 301-324): the mode names of the .weather-overlay elements
in the document, the currentWeather field (initially none), and the modes
whose overlay element currently carries the class active. -/
structure WeatherObj where
  overlays : List String
  currentWeather : String
  active : List String
deriving DecidableEq

/-- Model of weatherController.setWeather of the second script (main.js
lines 307-323) on its no-throw path: a no-op for the current mode;
otherwise every overlay loses the class active, and for a mode other than
none whose overlay element exists that single overlay gains it. The DOM
error path of document.querySelector for an invalid selector is modelled
by objSetWeatherE below, which agrees with this state transition on valid
identifiers. -/
def objSetWeather (s : WeatherObj) (weather : String) : WeatherObj :=
  if s.currentWeather = weather then s
  else
    { s with currentWeather := weather,
             active :=
               if weather ≠ "none" ∧ weather ∈ s.overlays then addClass [] weather
               else [] }

/-- Mode m is visually active in the object-literal controller: for none
this is the no-effect state, otherwise the overlay of m carries active. -/
def objActive (s : WeatherObj) (m : String) : Prop :=
  if m = "none" then s.active = [] else m ∈ s.active

/-- Every mode carrying active names the current mode and has an overlay
element. -/
def objInv (s : WeatherObj) : Prop :=
  ∀ k, k ∈ s.active → k = s.currentWeather ∧ k ∈ s.overlays

/-- Weather class name the part_000 controller toggles on its single
overlay element for a given mode. -/
def wovl (w : String) : String := "weather-overlay--" ++ w

/-- State of the part_000 WeatherController: the currentWeather field and
the class list of the overlay element, restricted to the weather-overlay--
classes the controller manipulates. -/
structure WeatherP0 where
  currentWeather : String
  classes : List String
deriving DecidableEq

/-- Model of the part_000 WeatherController.setWeather (lines 28-50) on
its no-throw path: re-selecting the current mode clears the effect through
a recursive call (a no-op only for clear); otherwise the class of the
previous non-clear mode is removed, the class of the new non-clear mode is
added and currentWeather is updated. The DOM error path of classList.add
and classList.remove for whitespace-containing tokens is modelled by
p0SetWeatherE below, which agrees with this state transition on valid
tokens. -/
def p0SetWeather (s : WeatherP0) (weather : String) : WeatherP0 :=
  if s.currentWeather = weather then
    if weather ≠ "clear" then p0SetWeather s "clear" else s
  else
    let c1 := if s.currentWeather ≠ "clear" then removeClass s.classes (wovl s.currentWeather)
              else s.classes
    let c2 := if weather ≠ "clear" then addClass c1 (wovl weather) else c1
    { currentWeather := weather, classes := c2 }
termination_by ((if weather = "clear" then 0 else 1) : Nat)
decreasing_by simp_all

/-- Mode m is visually active in the part_000 controller: for clear this
is the state with no weather-overlay-- class, otherwise the overlay
carries the class of m. -/
def p0Active (s : WeatherP0) (m : String) : Prop :=
  if m = "clear" then ∀ k, wovl k ∉ s.classes else wovl m ∈ s.classes

/-- Weather classes on the part_000 overlay always name the current mode
and never name clear. -/
def p0Inv (s : WeatherP0) : Prop :=
  ∀ m, wovl m ∈ s.classes → m = s.currentWeather ∧ m ≠ "clear"

/-- Characters allowed after the first character of a URL scheme. -/
def isSchemeChar (c : Char) : Bool :=
  c.isAlpha || c.isDigit || c == '+' || c == '-' || c == '.'

/-- Splits off the text before the first colon; none when no colon
occurs. -/
def takeScheme : List Char → Option (List Char × List Char)
  | [] => none
  | c :: cs =>
    if c = ':' then some ([], cs)
    else
      match takeScheme cs with
      | some (a, b) => some (c :: a, b)
      | none => none

/-- A well-formed scheme: a letter followed by scheme characters. -/
def validScheme : List Char → Bool
  | [] => false
  | c :: cs => c.isAlpha && cs.all isSchemeChar

/-- Splits an authority at the first slash, question mark or hash. -/
def splitAuthority : List Char → List Char × List Char
  | [] => ([], [])
  | c :: cs =>
    if c = '/' ∨ c = '?' ∨ c = '#' then ([], c :: cs)
    else
      let (h, r) := splitAuthority cs
      (c :: h, r)

/-- Code points that make a host invalid. -/
def forbiddenHostChar (c : Char) : Bool :=
  c == ' ' || c == '\t' || c == '\n' || c == '\r' || c == '#' || c == ':' ||
  c == '?' || c == '@' || c == '[' || c == ']' || c == '\\' || c == '<' ||
  c == '>' || c == '^' || c == '|'

/-- Model of the browser URL constructor (the WHATWG basic URL parser),
restricted to the behaviour the scripts rely on: the input must carry a
scheme; for the special schemes http and https it must continue with two
slashes and a non-empty well-formed host, and the serialization lowercases
the scheme and host and uses the path / when none is given; any other
scheme keeps its text after the colon verbatim. Returns the serialized URL,
or none when the constructor would throw a TypeError. -/
def urlParse (s : String) : Option String :=
  match takeScheme s.data with
  | none => none
  | some (sch, rest) =>
    if validScheme sch then
      let schemeL := String.mk (sch.map Char.toLower)
      if schemeL = "http" ∨ schemeL = "https" then
        match rest with
        | '/' :: '/' :: r2 =>
          let (host, tail) := splitAuthority r2
          if host.isEmpty ∨ host.any forbiddenHostChar then none
          else
            some (schemeL ++ "://" ++ String.mk (host.map Char.toLower) ++
              (if tail.isEmpty then "/" else String.mk tail))
        | _ => none
      else some (schemeL ++ ":" ++ String.mk rest)
    else none

/-- Model of the JS String.prototype.startsWith check, on the character
level so that it evaluates inside the kernel. -/
def strStartsWith (s p : String) : Bool :=
  p.data.isPrefixOf s.data

/-- Model of the JS String.prototype.trim, on the character level: leading
and trailing whitespace is removed. -/
def strTrim (s : String) : String :=
  String.mk (((s.data.dropWhile Char.isWhitespace).reverse.dropWhile
    Char.isWhitespace).reverse)

/-- State of the preview iframe: its src attribute and whether an onload
handler has been installed by the controller. -/
structure PreviewState where
  src : String
  onloadSet : Bool
deriving DecidableEq

/-- Model of IframePreviewController.loadUrl of main.js (lines 120-142):
an empty string only logs a console error and changes nothing; otherwise
the input is handed to the URL constructor as written, a successful parse
is assigned as the iframe src and an onload handler is installed, and a
TypeError is caught by logging a console error, alerting the user and
resetting the iframe to about:blank. Returns the new iframe state with the
messages emitted. -/
def loadUrl (st : PreviewState) (urlString : String) : PreviewState × List Msg :=
  if urlString = "" then (st, [Msg.consoleError "No URL provided."])
  else
    match urlParse urlString with
    | some u => ({ src := u, onloadSet := true }, [])
    | none =>
        ({ src := "about:blank", onloadSet := st.onloadSet },
         [Msg.consoleError "Invalid URL provided:",
          Msg.alert "Please enter a valid URL (e.g., https://example.com)"])

/-- Model of loadUrlInPreview of the second script in main.js (lines
260-277): the input is trimmed; an empty result alerts the user and
changes nothing; otherwise https:// is prefixed unless the string starts
with http:// or https://, and the result is assigned as the iframe src
without any parsing or validation. -/
def loadUrlInPreview (st : PreviewState) (inputValue : String) : PreviewState × List Msg :=
  let url := strTrim inputValue
  if url = "" then (st, [Msg.alert "Please enter a valid URL."])
  else
    let url2 := if !(strStartsWith url "http://") && !(strStartsWith url "https://") then
                  "https://" ++ url
                else url
    ({ st with src := url2 }, [Msg.consoleLog ("Attempting to load: " ++ url2)])

/-- Model of the part_000 IframePreviewController.loadUrl (lines 92-112):
like the main.js loadUrl, except that the string handed to the URL
constructor is prefixed with https:// when the input does not start with
the literal text http. -/
def p0LoadUrl (st : PreviewState) (urlString : String) : PreviewState × List Msg :=
  if urlString = "" then (st, [Msg.consoleError "No URL provided."])
  else
    match urlParse (if strStartsWith urlString "http" then urlString
                    else "https://" ++ urlString) with
    | some u => ({ src := u, onloadSet := true }, [])
    | none =>
        ({ src := "about:blank", onloadSet := st.onloadSet },
         [Msg.consoleError "Invalid URL provided:",
          Msg.alert "Please enter a valid URL (e.g., https://example.com)"])

/-- State of the scroll-reveal observer (SectionObserver in main.js lines
149-200 and part_000 lines 119-153, and the inline observer of the second
script): the observed element ids, the ids carrying the class visible, and
the ids currently observed by the IntersectionObserver. -/
structure SecObs where
  elements : List String
  visible : List String
  observed : List String
deriving DecidableEq

/-- An entry delivered to an IntersectionObserver callback. -/
structure ObsEntry where
  target : String
  isIntersecting : Bool
deriving DecidableEq

/-- Model of SectionObserver.revealAll: every element gains the class
visible. -/
def revealAll (s : SecObs) : SecObs :=
  { s with visible := s.elements.foldl addClass s.visible }

/-- Model of SectionObserver.init (main.js lines 169-177, part_000 lines
133-139): under prefers-reduced-motion every element is revealed at once
and nothing is observed; otherwise every element is handed to the
observer. -/
def secInit (reducedMotion : Bool) (s : SecObs) : SecObs :=
  if reducedMotion then revealAll s
  else { s with observed := s.elements.foldl addClass s.observed }

/-- Model of one entry of SectionObserver.handleIntersection (main.js
lines 184-192) and of the inline observer callback of the second script
(lines 237-244): an intersecting target gains the class visible and is
unobserved; any other entry changes nothing. -/
def handleEntry (s : SecObs) (en : ObsEntry) : SecObs :=
  if en.isIntersecting then
    { s with visible := addClass s.visible en.target,
             observed := removeClass s.observed en.target }
  else s

/-- Model of a whole callback invocation: the entries are processed in
order. -/
def handleIntersection (s : SecObs) (entries : List ObsEntry) : SecObs :=
  entries.foldl handleEntry s

/-- Model of the WeatherController constructor (main.js lines 17-32,
part_000 lines 8-16): a missing overlay or controls element throws an
Error; otherwise the instance stores both elements, starts in mode clear
and maps the effect elements found under the overlay. The initial class
state of the effect elements is whatever the document carried. -/
def weatherCtor (overlayElement controlsElement : Option String)
    (eff initActive : List String) : Except String WeatherCtl :=
  match overlayElement, controlsElement with
  | none, _ => Except.error "WeatherController requires valid overlay and controls elements."
  | _, none => Except.error "WeatherController requires valid overlay and controls elements."
  | some o, some c =>
      Except.ok { overlay := o, controls := c, eff := eff,
                  currentWeather := "clear", active := initActive }

/-- Instance state of the IframePreviewController: the form and iframe
elements, the input element found inside the form (none when the form has
no url input), and whether an onLoad callback was supplied. -/
structure IframeCtl where
  form : String
  input : Option String
  iframe : String
  hasCallback : Bool
deriving DecidableEq

/-- Model of the IframePreviewController constructor (main.js lines
93-103, part_000 lines 73-82): a missing form or iframe element throws an
Error; otherwise the instance stores the form, the iframe, the url input
found inside the form (possibly none) and the callback. -/
def iframeCtor (form iframe : Option String) (inputInForm : Option String)
    (cb : Bool) : Except String IframeCtl :=
  match form, iframe with
  | none, _ => Except.error "IframePreviewController requires a valid form and iframe element."
  | _, none => Except.error "IframePreviewController requires a valid form and iframe element."
  | some f, some i =>
      Except.ok { form := f, input := inputInForm, iframe := i, hasCallback := cb }

/-- At most one member: any two members of the list are equal. -/
def atMostOneActive (l : List String) : Prop :=
  ∀ a b, a ∈ l → b ∈ l → a = b

/-- ASCII whitespace as checked by the DOMTokenList token validation. -/
def isDomSpace (c : Char) : Bool :=
  c == ' ' || c == '\t' || c == '\n' || c == '\x0c' || c == '\r'

/-- Model of the DOMTokenList token check performed by classList.add and
classList.remove: the empty token and a token containing ASCII whitespace
make the call throw (a SyntaxError resp. an InvalidCharacterError). -/
def validDomToken (t : String) : Bool :=
  !(t == "") && t.data.all (fun c => !(isDomSpace c))

/-- Start character of a CSS identifier (ASCII, no escapes). -/
def cssNmStart (c : Char) : Bool :=
  c.isAlpha || c == '_'

/-- Continuation character of a CSS identifier (ASCII, no escapes). -/
def cssNmChar (c : Char) : Bool :=
  c.isAlpha || c.isDigit || c == '_' || c == '-'

/-- Model of the CSS identifier grammar (ASCII, without escapes): an
optional leading hyphen or custom-property double hyphen followed by a
name-start character and name characters. The object-literal controller
builds the selector .weather-overlay.<w>, which document.querySelector
rejects with a SyntaxError when w is not an identifier (for example the
digit-leading w = 123); the model is restricted to identifier-shaped
inputs and treats every non-identifier as rejected. -/
def validCssIdent (s : String) : Bool :=
  match s.data with
  | [] => false
  | '-' :: '-' :: rest => rest.all cssNmChar
  | '-' :: c :: rest => cssNmStart c && rest.all cssNmChar
  | c :: rest => cssNmStart c && rest.all cssNmChar

/-- DOM exceptions the weather controllers can raise: badSelector models
the SyntaxError thrown by document.querySelector for an invalid selector,
badToken the InvalidCharacterError thrown by classList.add and
classList.remove for a whitespace-containing token. -/
inductive DomErr where
  | badSelector
  | badToken
deriving DecidableEq

/-- Model of weatherController.setWeather of the second script including
its DOM error path (main.js lines 307-323): after the same-mode guard,
every overlay is deactivated; for a mode other than none, querySelector on
.weather-overlay.<w> throws for a selector-invalid identifier, aborting
the call with every overlay off and currentWeather unchanged; otherwise
the matching overlay (when present) is activated and currentWeather is
updated. The pair carries the state reached and the error thrown, if
any. -/
def objSetWeatherE (s : WeatherObj) (weather : String) :
    WeatherObj × Option DomErr :=
  if s.currentWeather = weather then (s, none)
  else if weather ≠ "none" then
    if validCssIdent weather then
      ({ s with currentWeather := weather,
                active := if weather ∈ s.overlays then addClass [] weather else [] },
       none)
    else ({ s with active := [] }, some DomErr.badSelector)
  else ({ s with currentWeather := weather, active := [] }, none)

/-- Model of the part_000 WeatherController.setWeather including its DOM
error path (part_000 lines 28-50): removing the class of the previous
non-clear mode throws for a whitespace-containing current mode; otherwise,
adding the class of a new non-clear mode throws for a
whitespace-containing identifier, after the previous class was already
removed and before currentWeather is updated. The pair carries the state
reached and the error thrown, if any. -/
def p0SetWeatherE (s : WeatherP0) (weather : String) : WeatherP0 × Option DomErr :=
  if s.currentWeather = weather then
    if weather ≠ "clear" then p0SetWeatherE s "clear" else (s, none)
  else
    if s.currentWeather ≠ "clear" ∧ validDomToken (wovl s.currentWeather) = false then
      (s, some DomErr.badToken)
    else
      let c1 := if s.currentWeather ≠ "clear" then removeClass s.classes (wovl s.currentWeather)
                else s.classes
      if weather ≠ "clear" ∧ validDomToken (wovl weather) = false then
        ({ s with classes := c1 }, some DomErr.badToken)
      else
        let c2 := if weather ≠ "clear" then addClass c1 (wovl weather) else c1
        ({ currentWeather := weather, classes := c2 }, none)
termination_by ((if weather = "clear" then 0 else 1) : Nat)
decreasing_by simp_all

/-- Model of the submit handler installed by IframePreviewController.init
(main.js lines 108-114, part_000 lines 84-90): reading this.input.value
throws a TypeError when the form holds no url input (the constructor does
not validate it); otherwise the current text of the input is handed to
loadUrl. -/
def submitHandler (inst : IframeCtl) (st : PreviewState) (value : String) :
    Except String (PreviewState × List Msg) :=
  match inst.input with
  | none => Except.error "TypeError: this.input is null"
  | some _ => Except.ok (loadUrl st value)

theorem mem_addClass {cs : List String} {c x : String} :
    x ∈ addClass cs c ↔ x ∈ cs ∨ x = c := by
  unfold addClass
  by_cases h : c ∈ cs
  · rw [if_pos h]
    constructor
    · exact Or.inl
    · rintro (hx | rfl)
      · exact hx
      · exact h
  · rw [if_neg h]
    simp

theorem mem_removeClass {cs : List String} {c x : String} :
    x ∈ removeClass cs c ↔ x ∈ cs ∧ x ≠ c := by
  unfold removeClass
  simp

theorem setWeather_current (s : WeatherCtl) (w : String) :
    (setWeather s w).currentWeather = w := by
  unfold setWeather
  split
  · next h => exact h
  · rfl

theorem setWeather_eff (s : WeatherCtl) (w : String) :
    (setWeather s w).eff = s.eff := by
  unfold setWeather
  split <;> rfl

theorem setWeather_active_of_ne {s : WeatherCtl} {w : String}
    (hc : s.currentWeather ≠ w) :
    (setWeather s w).active =
      if w = "clear" then []
      else if w ∈ s.eff then
        addClass (if s.currentWeather ∈ s.eff then removeClass s.active s.currentWeather
                  else s.active) w
      else if s.currentWeather ∈ s.eff then removeClass s.active s.currentWeather
      else s.active := by
  unfold setWeather
  rw [if_neg hc]

theorem not_mem_deactivated {s : WeatherCtl} (h : wInv s) {k : String} :
    k ∉ (if s.currentWeather ∈ s.eff then removeClass s.active s.currentWeather
         else s.active) := by
  intro hk
  by_cases hc : s.currentWeather ∈ s.eff
  · rw [if_pos hc] at hk
    rcases mem_removeClass.1 hk with ⟨hmem, hne⟩
    exact hne (h k hmem).1
  · rw [if_neg hc] at hk
    exact hc ((h k hk).1 ▸ (h k hk).2)

theorem wInv_setWeather {s : WeatherCtl} (h : wInv s) (w : String) :
    wInv (setWeather s w) := by
  by_cases hc : s.currentWeather = w
  · unfold setWeather
    rw [if_pos hc]
    exact h
  · intro k hk
    rw [setWeather_active_of_ne hc] at hk
    rw [setWeather_current, setWeather_eff]
    by_cases h3 : w = "clear"
    · rw [if_pos h3] at hk
      cases hk
    · rw [if_neg h3] at hk
      by_cases h2 : w ∈ s.eff
      · rw [if_pos h2] at hk
        rcases mem_addClass.1 hk with hk1 | hk1
        · exact absurd hk1 (not_mem_deactivated h)
        · exact ⟨hk1, hk1 ▸ h2⟩
      · rw [if_neg h2] at hk
        exact absurd hk (not_mem_deactivated h)

theorem wInv_foldl (ws : List String) :
    ∀ {s : WeatherCtl}, wInv s → wInv (ws.foldl setWeather s) := by
  induction ws with
  | nil => intro s h; exact h
  | cons w t ih => intro s h; exact ih (wInv_setWeather h w)

theorem objSetWeather_current (s : WeatherObj) (w : String) :
    (objSetWeather s w).currentWeather = w := by
  unfold objSetWeather
  split
  · next h => exact h
  · rfl

theorem objSetWeather_overlays (s : WeatherObj) (w : String) :
    (objSetWeather s w).overlays = s.overlays := by
  unfold objSetWeather
  split <;> rfl

theorem objSetWeather_active_of_ne {s : WeatherObj} {w : String}
    (hc : s.currentWeather ≠ w) :
    (objSetWeather s w).active =
      if w ≠ "none" ∧ w ∈ s.overlays then addClass [] w else [] := by
  unfold objSetWeather
  rw [if_neg hc]

theorem objInv_setWeather {s : WeatherObj} (h : objInv s) (w : String) :
    objInv (objSetWeather s w) := by
  by_cases hc : s.currentWeather = w
  · unfold objSetWeather
    rw [if_pos hc]
    exact h
  · intro k hk
    rw [objSetWeather_active_of_ne hc] at hk
    rw [objSetWeather_current, objSetWeather_overlays]
    by_cases h2 : w ≠ "none" ∧ w ∈ s.overlays
    · rw [if_pos h2] at hk
      rcases mem_addClass.1 hk with hk1 | hk1
      · cases hk1
      · exact ⟨hk1, hk1 ▸ h2.2⟩
    · rw [if_neg h2] at hk
      cases hk

theorem objInv_foldl (ws : List String) :
    ∀ {s : WeatherObj}, objInv s → objInv (ws.foldl objSetWeather s) := by
  induction ws with
  | nil => intro s h; exact h
  | cons w t ih => intro s h; exact ih (objInv_setWeather h w)

theorem wovl_inj {a b : String} (h : wovl a = wovl b) : a = b := by
  unfold wovl at h
  have hd : ("weather-overlay--" ++ a).data = ("weather-overlay--" ++ b).data := by rw [h]
  rw [String.data_append, String.data_append] at hd
  exact String.ext (List.append_cancel_left hd)

theorem p0SetWeather_same (s : WeatherP0) (w : String) (h : s.currentWeather = w) :
    p0SetWeather s w = if w = "clear" then s else p0SetWeather s "clear" := by
  conv_lhs => rw [p0SetWeather.eq_def]
  rw [if_pos h]
  by_cases hc : w = "clear"
  · rw [if_neg (not_not_intro hc), if_pos hc]
  · rw [if_pos hc, if_neg hc]

theorem p0SetWeather_ne_def (s : WeatherP0) (w : String) (h : ¬ s.currentWeather = w) :
    p0SetWeather s w =
      { currentWeather := w,
        classes :=
          if w ≠ "clear" then
            addClass (if s.currentWeather ≠ "clear" then
                        removeClass s.classes (wovl s.currentWeather)
                      else s.classes) (wovl w)
          else if s.currentWeather ≠ "clear" then removeClass s.classes (wovl s.currentWeather)
          else s.classes } := by
  conv_lhs => rw [p0SetWeather.eq_def]
  rw [if_neg h]

theorem p0_ne_current (s : WeatherP0) (w : String) (h : ¬ s.currentWeather = w) :
    (p0SetWeather s w).currentWeather = w := by
  rw [p0SetWeather_ne_def s w h]

theorem p0_ne_classes_eq (s : WeatherP0) (w : String) (h : ¬ s.currentWeather = w) :
    (p0SetWeather s w).classes =
      if w ≠ "clear" then
        addClass (if s.currentWeather ≠ "clear" then
                    removeClass s.classes (wovl s.currentWeather)
                  else s.classes) (wovl w)
      else if s.currentWeather ≠ "clear" then removeClass s.classes (wovl s.currentWeather)
      else s.classes := by
  rw [p0SetWeather_ne_def s w h]

theorem p0_no_ovl {s : WeatherP0} (h : p0Inv s) {k : String} :
    wovl k ∉ (if s.currentWeather ≠ "clear" then removeClass s.classes (wovl s.currentWeather)
              else s.classes) := by
  intro hk
  by_cases hc : s.currentWeather = "clear"
  · rw [if_neg (not_not_intro hc)] at hk
    exact (h k hk).2 ((h k hk).1.trans hc)
  · rw [if_pos hc] at hk
    rcases mem_removeClass.1 hk with ⟨hmem, hne⟩
    exact hne (congrArg wovl (h k hmem).1)

theorem p0_ne_mem {s : WeatherP0} (h : p0Inv s) {w : String} (hc : ¬ s.currentWeather = w) :
    ∀ k, wovl k ∈ (p0SetWeather s w).classes ↔ (k = w ∧ w ≠ "clear") := by
  intro k
  rw [p0_ne_classes_eq s w hc]
  by_cases hw : w = "clear"
  · rw [if_neg (not_not_intro hw)]
    constructor
    · intro hk
      exact absurd hk (p0_no_ovl h)
    · rintro ⟨_, hne⟩
      exact absurd hw hne
  · rw [if_pos hw]
    constructor
    · intro hk
      rcases mem_addClass.1 hk with hk1 | hk1
      · exact absurd hk1 (p0_no_ovl h)
      · exact ⟨wovl_inj hk1, hw⟩
    · rintro ⟨rfl, _⟩
      exact mem_addClass.2 (Or.inr rfl)

theorem p0SetWeather_inv_spec {s : WeatherP0} (h : p0Inv s) (w : String) :
    p0Inv (p0SetWeather s w) ∧
    (p0SetWeather s w).currentWeather =
      (if s.currentWeather = w ∧ w ≠ "clear" then "clear" else w) ∧
    ∀ k, wovl k ∈ (p0SetWeather s w).classes ↔
      (k = w ∧ w ≠ "clear" ∧ s.currentWeather ≠ w) := by
  by_cases hcw : s.currentWeather = w
  · by_cases hw : w = "clear"
    · have he : p0SetWeather s w = s := by
        rw [p0SetWeather_same s w hcw, if_pos hw]
      rw [he]
      refine ⟨h, ?_, ?_⟩
      · rw [if_neg (by simp [hw])]
        exact hcw
      · intro k
        constructor
        · intro hk
          exact absurd ((h k hk).1.trans (hcw.trans hw)) (h k hk).2
        · rintro ⟨_, hne, _⟩
          exact absurd hw hne
    · have he : p0SetWeather s w = p0SetWeather s "clear" := by
        rw [p0SetWeather_same s w hcw, if_neg hw]
      have hcc : ¬ s.currentWeather = "clear" := by rw [hcw]; exact hw
      rw [he]
      refine ⟨?_, ?_, ?_⟩
      · intro k hk
        rw [p0_ne_mem h hcc k] at hk
        exact absurd rfl hk.2
      · rw [p0_ne_current s "clear" hcc, if_pos ⟨hcw, hw⟩]
      · intro k
        rw [p0_ne_mem h hcc k]
        constructor
        · rintro ⟨_, hcl⟩
          exact absurd rfl hcl
        · rintro ⟨_, _, hne⟩
          exact absurd hcw hne
  · refine ⟨?_, ?_, ?_⟩
    · intro k hk
      rw [p0_ne_mem h hcw k] at hk
      rw [p0_ne_current s w hcw]
      refine ⟨hk.1, ?_⟩
      rw [hk.1]
      exact hk.2
    · rw [p0_ne_current s w hcw, if_neg (fun hx => hcw hx.1)]
    · intro k
      rw [p0_ne_mem h hcw k]
      constructor
      · rintro ⟨h1, h2⟩
        exact ⟨h1, h2, hcw⟩
      · rintro ⟨h1, h2, _⟩
        exact ⟨h1, h2⟩

/-- C3 (counterexample): in the part_000 variant, re-selecting the current
mode rainy is not a no-op: the controller transitions to clear and drops
the overlay class, contradicting the claim that selecting the same mode
twice leaves the controller state and active classes unchanged. -/
theorem c3_counterexample :
    p0SetWeather ⟨"rainy", [wovl "rainy"]⟩ "rainy" ≠
      (⟨"rainy", [wovl "rainy"]⟩ : WeatherP0) := by
  have h : p0SetWeather ⟨"rainy", [wovl "rainy"]⟩ "rainy" = ⟨"clear", []⟩ := by
    simp [p0SetWeather, wovl, removeClass, addClass]
  rw [h]
  decide

/-- C3 (amended): in the two main.js controllers setWeather with the
current mode is a no-op; in the part_000 controller re-selecting the
current mode behaves like selecting clear (a no-op only when the current
mode already is clear). -/
theorem c3_amended_idempotence :
    (∀ (s : WeatherCtl) (w : String), s.currentWeather = w → setWeather s w = s) ∧
    (∀ (s : WeatherObj) (w : String), s.currentWeather = w → objSetWeather s w = s) ∧
    (∀ (s : WeatherP0) (w : String), s.currentWeather = w →
      p0SetWeather s w = if w = "clear" then s else p0SetWeather s "clear") := by
  refine ⟨?_, ?_, ?_⟩
  · intro s w h
    unfold setWeather
    rw [if_pos h]
  · intro s w h
    unfold objSetWeather
    rw [if_pos h]
  · intro s w h
    exact p0SetWeather_same s w h

/-- C3 (witness): the amended statement applied to the class-based
controller in mode rainy. -/
theorem c3_witness :
    setWeather ⟨"ov", "ct", ["rainy"], "rainy", ["rainy"]⟩ "rainy" =
      ⟨"ov", "ct", ["rainy"], "rainy", ["rainy"]⟩ :=
  c3_amended_idempotence.1 ⟨"ov", "ct", ["rainy"], "rainy", ["rainy"]⟩ "rainy" rfl

/-- C4: starting from the initial state (mode clear resp. none, no effect
active), after every sequence of setWeather calls at most one weather
effect element carries the active visual state, in both main.js
controllers. -/
theorem c4_at_most_one_active (ov ct : String) (eff ws ovls ws2 : List String) :
    atMostOneActive (ws.foldl setWeather ⟨ov, ct, eff, "clear", []⟩).active ∧
    atMostOneActive (ws2.foldl objSetWeather ⟨ovls, "none", []⟩).active := by
  constructor
  · intro a b ha hb
    have h : wInv (ws.foldl setWeather ⟨ov, ct, eff, "clear", []⟩) :=
      wInv_foldl ws (fun k hk => absurd hk (List.not_mem_nil k))
    rw [(h a ha).1, (h b hb).1]
  · intro a b ha hb
    have h : objInv (ws2.foldl objSetWeather ⟨ovls, "none", []⟩) :=
      objInv_foldl ws2 (fun k hk => absurd hk (List.not_mem_nil k))
    rw [(h a ha).1, (h b hb).1]

/-- C4 (witness): the invariant evaluated on a concrete call sequence. -/
theorem c4_witness :
    atMostOneActive (["rainy", "snowy", "clear"].foldl setWeather
      ⟨"ov", "ct", ["rainy", "snowy"], "clear", []⟩).active :=
  (c4_at_most_one_active "ov" "ct" ["rainy", "snowy"] ["rainy", "snowy", "clear"] [] []).1

/-- C5: in every variant, selecting a known mode A and then a different
known mode B leaves exactly the visual state of B active and the visual
state of A deactivated. Known modes are the keys of the effects map for the
class-based controller, the overlay modes (or the idle mode none) for the
object-literal controller, and arbitrary modes for the part_000 controller,
whose reachable states satisfy p0Inv. -/
theorem c5_mode_switch :
    (∀ (s : WeatherCtl) (A B : String), A ∈ s.eff → B ∈ s.eff → A ≠ B →
      wActive (setWeather (setWeather s A) B) B ∧
      ¬ wActive (setWeather (setWeather s A) B) A) ∧
    (∀ (s : WeatherObj) (A B : String),
      (A ∈ s.overlays ∨ A = "none") → (B ∈ s.overlays ∨ B = "none") → A ≠ B →
      objActive (objSetWeather (objSetWeather s A) B) B ∧
      ¬ objActive (objSetWeather (objSetWeather s A) B) A) ∧
    (∀ (s : WeatherP0) (A B : String), p0Inv s → A ≠ B →
      p0Active (p0SetWeather (p0SetWeather s A) B) B ∧
      ¬ p0Active (p0SetWeather (p0SetWeather s A) B) A) := by
  refine ⟨?_, ?_, ?_⟩
  · intro s A B hA hB hAB
    set s1 := setWeather s A with hs1
    have hcur : s1.currentWeather = A := setWeather_current s A
    have heff : s1.eff = s.eff := setWeather_eff s A
    have hne : s1.currentWeather ≠ B := by rw [hcur]; exact hAB
    have hact := setWeather_active_of_ne hne
    rw [hcur, heff] at hact
    by_cases hBc : B = "clear"
    · rw [if_pos hBc] at hact
      constructor
      · unfold wActive
        rw [if_pos hBc]
        exact hact
      · unfold wActive
        have hAc : ¬ A = "clear" := fun h => hAB (h.trans hBc.symm)
        rw [if_neg hAc, hact]
        exact List.not_mem_nil A
    · rw [if_neg hBc, if_pos hB, if_pos hA] at hact
      have hBmem : B ∈ (setWeather s1 B).active := by
        rw [hact]
        exact mem_addClass.2 (Or.inr rfl)
      constructor
      · unfold wActive
        rw [if_neg hBc]
        exact hBmem
      · unfold wActive
        by_cases hAc : A = "clear"
        · rw [if_pos hAc]
          intro hemp
          rw [hemp] at hBmem
          exact List.not_mem_nil B hBmem
        · rw [if_neg hAc]
          intro hmem
          rw [hact] at hmem
          rcases mem_addClass.1 hmem with h1 | h1
          · exact (mem_removeClass.1 h1).2 rfl
          · exact hAB h1
  · intro s A B hA hB hAB
    set s1 := objSetWeather s A with hs1
    have hcur : s1.currentWeather = A := objSetWeather_current s A
    have hov : s1.overlays = s.overlays := objSetWeather_overlays s A
    have hne : s1.currentWeather ≠ B := by rw [hcur]; exact hAB
    have hact := objSetWeather_active_of_ne hne
    rw [hov] at hact
    by_cases hBn : B = "none"
    · rw [if_neg (by simp [hBn])] at hact
      constructor
      · unfold objActive
        rw [if_pos hBn]
        exact hact
      · unfold objActive
        have hAn : ¬ A = "none" := fun h => hAB (h.trans hBn.symm)
        rw [if_neg hAn, hact]
        exact List.not_mem_nil A
    · have hBov : B ∈ s.overlays := hB.resolve_right hBn
      rw [if_pos ⟨hBn, hBov⟩] at hact
      have hBmem : B ∈ (objSetWeather s1 B).active := by
        rw [hact]
        exact mem_addClass.2 (Or.inr rfl)
      constructor
      · unfold objActive
        rw [if_neg hBn]
        exact hBmem
      · unfold objActive
        by_cases hAn : A = "none"
        · rw [if_pos hAn]
          intro hemp
          rw [hemp] at hBmem
          exact List.not_mem_nil B hBmem
        · rw [if_neg hAn]
          intro hmem
          rw [hact] at hmem
          rcases mem_addClass.1 hmem with h1 | h1
          · exact List.not_mem_nil A h1
          · exact hAB h1
  · intro s A B hinv hAB
    obtain ⟨hinv1, hcur1, _⟩ := p0SetWeather_inv_spec hinv A
    obtain ⟨_, _, hmem2⟩ := p0SetWeather_inv_spec hinv1 B
    have hs1B : B ≠ "clear" → (p0SetWeather s A).currentWeather ≠ B := by
      intro hBc
      rw [hcur1]
      by_cases hca : s.currentWeather = A ∧ A ≠ "clear"
      · rw [if_pos hca]
        exact fun h => hBc h.symm
      · rw [if_neg hca]
        exact hAB
    constructor
    · unfold p0Active
      by_cases hBc : B = "clear"
      · rw [if_pos hBc]
        intro k hk
        rcases (hmem2 k).1 hk with ⟨_, hne, _⟩
        exact hne hBc
      · rw [if_neg hBc]
        exact (hmem2 B).2 ⟨rfl, hBc, hs1B hBc⟩
    · unfold p0Active
      by_cases hAc : A = "clear"
      · rw [if_pos hAc]
        intro hall
        have hBc : B ≠ "clear" := fun h => hAB (hAc.trans h.symm)
        exact hall B ((hmem2 B).2 ⟨rfl, hBc, hs1B hBc⟩)
      · rw [if_neg hAc]
        intro hmem
        rcases (hmem2 A).1 hmem with ⟨h1, _, _⟩
        exact hAB h1

/-- C5 (witness): the class-based controller switching from rainy to
snowy. -/
theorem c5_witness :
    wActive (setWeather (setWeather ⟨"ov", "ct", ["rainy", "snowy"], "clear", []⟩
      "rainy") "snowy") "snowy" ∧
    ¬ wActive (setWeather (setWeather ⟨"ov", "ct", ["rainy", "snowy"], "clear", []⟩
      "rainy") "snowy") "rainy" :=
  c5_mode_switch.1 ⟨"ov", "ct", ["rainy", "snowy"], "clear", []⟩ "rainy" "snowy"
    (by decide) (by decide) (by decide)

/-- Unknown identifiers on the no-throw fragment: on every invariant
state an identifier outside the known set leaves no effect element active
in the two main.js controllers, while the part_000 controller carries no
weather class of any other mode (the previous mode included; only the
inert, unstyled class of the unknown identifier itself is added). -/
theorem setWeather_unknown_graceful :
    (∀ (s : WeatherCtl) (u : String), wInv s → u ∉ s.eff →
      (setWeather s u).active = []) ∧
    (∀ (s : WeatherObj) (u : String), objInv s → u ∉ s.overlays →
      (objSetWeather s u).active = []) ∧
    (∀ (s : WeatherP0) (u : String), p0Inv s → ∀ m, m ≠ u →
      wovl m ∉ (p0SetWeather s u).classes) := by
  refine ⟨?_, ?_, ?_⟩
  · intro s u hinv hu
    by_cases hc : s.currentWeather = u
    · have he : setWeather s u = s := by
        unfold setWeather
        rw [if_pos hc]
      rw [he, List.eq_nil_iff_forall_not_mem]
      intro k hk
      rcases hinv k hk with ⟨h1, h2⟩
      rw [h1, hc] at h2
      exact hu h2
    · rw [setWeather_active_of_ne hc]
      by_cases h3 : u = "clear"
      · rw [if_pos h3]
      · rw [if_neg h3, if_neg hu, List.eq_nil_iff_forall_not_mem]
        intro k
        exact not_mem_deactivated hinv
  · intro s u hinv hu
    by_cases hc : s.currentWeather = u
    · have he : objSetWeather s u = s := by
        unfold objSetWeather
        rw [if_pos hc]
      rw [he, List.eq_nil_iff_forall_not_mem]
      intro k hk
      rcases hinv k hk with ⟨h1, h2⟩
      rw [h1, hc] at h2
      exact hu h2
    · rw [objSetWeather_active_of_ne hc, if_neg (fun hx => hu hx.2)]
  · intro s u hinv m hm hmem
    exact hm ((((p0SetWeather_inv_spec hinv u).2.2) m).1 hmem).1

/-- C1 (counterexample): submitting the empty string to the class-based
loadUrl leaves the iframe src unchanged but surfaces no user-visible
message: the only output is a console error, not an alert, contradicting
the claim that a user-visible validation message is always surfaced. -/
theorem c1_counterexample :
    (loadUrl ⟨"https://old.example/", false⟩ "").1 = ⟨"https://old.example/", false⟩ ∧
    (loadUrl ⟨"https://old.example/", false⟩ "").2.any Msg.isUserVisible = false := by
  constructor
  · rfl
  · rfl

/-- C1 (amended): an empty submission never mutates the iframe src and
always surfaces a validation message, which is an alert dialog in
loadUrlInPreview but only a console error in the two class-based loadUrl
variants. -/
theorem c1_amended_empty_input :
    (∀ (st : PreviewState), loadUrl st "" = (st, [Msg.consoleError "No URL provided."])) ∧
    (∀ (st : PreviewState), p0LoadUrl st "" = (st, [Msg.consoleError "No URL provided."])) ∧
    (∀ (st : PreviewState) (s : String), strTrim s = "" →
      loadUrlInPreview st s = (st, [Msg.alert "Please enter a valid URL."])) := by
  refine ⟨?_, ?_, ?_⟩
  · intro st
    rfl
  · intro st
    rfl
  · intro st s h
    simp [loadUrlInPreview, h]

/-- C1 (witness): a whitespace-only submission to loadUrlInPreview. -/
theorem c1_witness :
    loadUrlInPreview ⟨"https://old.example/", false⟩ "  " =
      (⟨"https://old.example/", false⟩, [Msg.alert "Please enter a valid URL."]) :=
  c1_amended_empty_input.2.2 ⟨"https://old.example/", false⟩ "  " (by decide)

/-- C2 (counterexample): the class-based loadUrl of main.js does not
normalize the bare domain example.com: the URL constructor throws and the
iframe is reset to about:blank instead of receiving
https://example.com/; likewise the part_000 loadUrl fails to normalize the
bare domain httpbin.org because that input starts with the literal text
http. -/
theorem c2_counterexample :
    (loadUrl ⟨"https://old.example/", false⟩ "example.com").1.src = "about:blank" ∧
    (loadUrl ⟨"https://old.example/", false⟩ "example.com").1.src ≠ "https://example.com/" ∧
    (p0LoadUrl ⟨"https://old.example/", false⟩ "httpbin.org").1.src = "about:blank" := by
  refine ⟨by decide, by decide, by decide⟩

/-- C2 (amended): loadUrlInPreview prefixes https:// to every trimmed
input that starts with neither http:// nor https:// and assigns the result
directly; the part_000 loadUrl prefixes https:// only to input that does
not start with the literal text http and assigns the parsed serialization;
the class-based loadUrl of main.js never normalizes, treating an
unparseable bare domain as malformed (about:blank). -/
theorem c2_amended_normalization :
    (∀ (st : PreviewState) (s : String), strTrim s ≠ "" →
      strStartsWith (strTrim s) "http://" = false →
      strStartsWith (strTrim s) "https://" = false →
      (loadUrlInPreview st s).1.src = "https://" ++ strTrim s) ∧
    (∀ (st : PreviewState) (s u : String), s ≠ "" →
      strStartsWith s "http" = false →
      urlParse ("https://" ++ s) = some u →
      (p0LoadUrl st s).1.src = u) ∧
    (∀ (st : PreviewState) (s : String), s ≠ "" → urlParse s = none →
      (loadUrl st s).1.src = "about:blank") := by
  refine ⟨?_, ?_, ?_⟩
  · intro st s h1 h2 h3
    simp [loadUrlInPreview, h1, h2, h3]
  · intro st s u h1 h2 h3
    simp [p0LoadUrl, h1, h2, h3]
  · intro st s h1 h2
    simp [loadUrl, h1, h2]

/-- C2 (witness): loadUrlInPreview normalizes the bare domain
example.com. -/
theorem c2_witness :
    (loadUrlInPreview ⟨"https://old.example/", false⟩ "example.com").1.src =
      "https://" ++ strTrim "example.com" :=
  c2_amended_normalization.1 ⟨"https://old.example/", false⟩ "example.com"
    (by decide) (by decide) (by decide)

/-- C7 (counterexample): the malformed input http:// fails URL parsing,
yet loadUrlInPreview assigns it to the iframe verbatim and surfaces no
user-facing error, contradicting the claim that every loader resets the
iframe to about:blank and alerts on malformed input. -/
theorem c7_counterexample :
    urlParse "http://" = none ∧
    (loadUrlInPreview ⟨"https://old.example/", false⟩ "http://").1.src = "http://" ∧
    (loadUrlInPreview ⟨"https://old.example/", false⟩ "http://").2.any
      Msg.isUserVisible = false := by
  refine ⟨by decide, by decide, by decide⟩

/-- C7 (amended): non-empty input whose (variant-specific) normalization
fails URL parsing makes both class-based loadUrl variants reset the iframe
to about:blank, log a console error and alert the user; loadUrlInPreview
performs no parsing and assigns its normalized string unconditionally. -/
theorem c7_amended_malformed :
    (∀ (st : PreviewState) (s : String), s ≠ "" → urlParse s = none →
      loadUrl st s = (⟨"about:blank", st.onloadSet⟩,
        [Msg.consoleError "Invalid URL provided:",
         Msg.alert "Please enter a valid URL (e.g., https://example.com)"])) ∧
    (∀ (st : PreviewState) (s : String), s ≠ "" →
      urlParse (if strStartsWith s "http" then s else "https://" ++ s) = none →
      p0LoadUrl st s = (⟨"about:blank", st.onloadSet⟩,
        [Msg.consoleError "Invalid URL provided:",
         Msg.alert "Please enter a valid URL (e.g., https://example.com)"])) := by
  constructor
  · intro st s h1 h2
    simp [loadUrl, h1, h2]
  · intro st s h1 h2
    simp [p0LoadUrl, h1, h2]

/-- C7 (witness): the class-based loadUrl on the malformed input
http://. -/
theorem c7_witness :
    loadUrl ⟨"https://old.example/", true⟩ "http://" =
      (⟨"about:blank", true⟩,
       [Msg.consoleError "Invalid URL provided:",
        Msg.alert "Please enter a valid URL (e.g., https://example.com)"]) :=
  c7_amended_malformed.1 ⟨"https://old.example/", true⟩ "http://" (by decide) (by decide)

theorem mem_foldl_addClass_acc {e : String} (l : List String) :
    ∀ {acc : List String}, e ∈ acc → e ∈ l.foldl addClass acc := by
  induction l with
  | nil => intro acc h; exact h
  | cons x t ih => intro acc h; exact ih (mem_addClass.2 (Or.inl h))

theorem mem_foldl_addClass {e : String} (l : List String) :
    ∀ {acc : List String}, e ∈ l → e ∈ l.foldl addClass acc := by
  induction l with
  | nil => intro acc h; cases h
  | cons x t ih =>
    intro acc h
    rcases List.mem_cons.1 h with rfl | h1
    · exact mem_foldl_addClass_acc t (mem_addClass.2 (Or.inr rfl))
    · exact ih h1

theorem visible_mono_entry {s : SecObs} {e : String} (h : e ∈ s.visible)
    (en : ObsEntry) : e ∈ (handleEntry s en).visible := by
  unfold handleEntry
  split
  · exact mem_addClass.2 (Or.inl h)
  · exact h

theorem visible_mono_batch {e : String} (entries : List ObsEntry) :
    ∀ {s : SecObs}, e ∈ s.visible → e ∈ (handleIntersection s entries).visible := by
  induction entries with
  | nil => intro s h; exact h
  | cons en t ih => intro s h; exact ih (visible_mono_entry h en)

theorem visible_mono_batches {e : String} (batches : List (List ObsEntry)) :
    ∀ {s : SecObs}, e ∈ s.visible → e ∈ (batches.foldl handleIntersection s).visible := by
  induction batches with
  | nil => intro s h; exact h
  | cons b t ih => intro s h; exact ih (visible_mono_batch b h)

theorem observed_notin_entry {s : SecObs} {e : String} (h : e ∉ s.observed)
    (en : ObsEntry) : e ∉ (handleEntry s en).observed := by
  unfold handleEntry
  split
  · intro hk
    exact h (mem_removeClass.1 hk).1
  · exact h

theorem observed_notin_batch {e : String} (entries : List ObsEntry) :
    ∀ {s : SecObs}, e ∉ s.observed → e ∉ (handleIntersection s entries).observed := by
  induction entries with
  | nil => intro s h; exact h
  | cons en t ih => intro s h; exact ih (observed_notin_entry h en)

theorem observed_notin_batches {e : String} (batches : List (List ObsEntry)) :
    ∀ {s : SecObs}, e ∉ s.observed →
      e ∉ (batches.foldl handleIntersection s).observed := by
  induction batches with
  | nil => intro s h; exact h
  | cons b t ih => intro s h; exact ih (observed_notin_batch b h)

theorem observed_removed_entry {s : SecObs} {e : String} {en : ObsEntry}
    (ht : en.target = e) (hi : en.isIntersecting = true) :
    e ∉ (handleEntry s en).observed := by
  unfold handleEntry
  rw [if_pos hi]
  intro hk
  exact (mem_removeClass.1 hk).2 ht.symm

theorem observed_removed_batch {e : String} (entries : List ObsEntry) :
    ∀ {s : SecObs}, (∃ en ∈ entries, en.target = e ∧ en.isIntersecting = true) →
      e ∉ (handleIntersection s entries).observed := by
  induction entries with
  | nil =>
    intro s h
    rcases h with ⟨en, hen, _⟩
    cases hen
  | cons x t ih =>
    intro s h
    rcases h with ⟨en, hen, ht, hi⟩
    rcases List.mem_cons.1 hen with rfl | h1
    · exact observed_notin_batch t (observed_removed_entry ht hi)
    · exact ih ⟨en, h1, ht, hi⟩

theorem observed_removed_batches {e : String} (batches : List (List ObsEntry)) :
    ∀ {s : SecObs} {b : List ObsEntry}, b ∈ batches →
      (∃ en ∈ b, en.target = e ∧ en.isIntersecting = true) →
      e ∉ (batches.foldl handleIntersection s).observed := by
  induction batches with
  | nil => intro s b hb _; cases hb
  | cons x t ih =>
    intro s b hb hex
    rcases List.mem_cons.1 hb with rfl | h1
    · exact observed_notin_batches t (observed_removed_batch _ hex)
    · exact ih h1 hex

/-- C8: under the reduced-motion preference, initialization marks every
element visible immediately, hands nothing to the observer, and no later
sequence of intersection callbacks can make anything observed. -/
theorem c8_reduced_motion (els vis : List String) (batches : List (List ObsEntry)) :
    (∀ e ∈ els, e ∈ (secInit true ⟨els, vis, []⟩).visible) ∧
    (secInit true ⟨els, vis, []⟩).observed = [] ∧
    (batches.foldl handleIntersection (secInit true ⟨els, vis, []⟩)).observed = [] := by
  refine ⟨?_, rfl, ?_⟩
  · intro e he
    exact mem_foldl_addClass els he
  · rw [List.eq_nil_iff_forall_not_mem]
    intro e
    exact observed_notin_batches batches (List.not_mem_nil e)

/-- C8 (witness): two concrete sections under reduced motion. -/
theorem c8_witness :
    "intro" ∈ (secInit true ⟨["intro", "features"], [], []⟩).visible ∧
    (secInit true ⟨["intro", "features"], [], []⟩).observed = [] :=
  ⟨(c8_reduced_motion ["intro", "features"] [] []).1 "intro" (by decide),
   (c8_reduced_motion ["intro", "features"] [] []).2.1⟩

/-- C9: the visibility class is monotonic across every sequence of
intersection callbacks: once a section carries visible it keeps it (so the
flag flips false to true at most once and never back), and a section whose
entry reports intersection in some callback is no longer observed
afterwards. -/
theorem c9_visibility_monotone (s : SecObs) (e : String)
    (batches : List (List ObsEntry)) :
    (e ∈ s.visible → e ∈ (batches.foldl handleIntersection s).visible) ∧
    (∀ b ∈ batches, (∃ en ∈ b, en.target = e ∧ en.isIntersecting = true) →
      e ∉ (batches.foldl handleIntersection s).observed) := by
  constructor
  · exact visible_mono_batches batches
  · intro b hb hex
    exact observed_removed_batches batches hb hex

/-- C9 (witness): a section that is already visible stays visible through
a callback that also unobserves it. -/
theorem c9_witness :
    "intro" ∈ (([[⟨"intro", true⟩]] : List (List ObsEntry)).foldl handleIntersection
      ⟨["intro"], ["intro"], ["intro"]⟩).visible ∧
    "intro" ∉ (([[⟨"intro", true⟩]] : List (List ObsEntry)).foldl handleIntersection
      ⟨["intro"], ["intro"], ["intro"]⟩).observed :=
  ⟨(c9_visibility_monotone ⟨["intro"], ["intro"], ["intro"]⟩ "intro"
      [[⟨"intro", true⟩]]).1 (by decide),
   (c9_visibility_monotone ⟨["intro"], ["intro"], ["intro"]⟩ "intro"
      [[⟨"intro", true⟩]]).2 [⟨"intro", true⟩] (by decide)
      ⟨⟨"intro", true⟩, by decide, rfl, rfl⟩⟩

/-- Agreement of the object-literal models: on a valid identifier (or the
idle mode none) the full model throws nothing and reaches the state of the
no-throw fragment. -/
theorem objSetWeatherE_agrees (s : WeatherObj) (w : String)
    (hw : w ≠ "none" → validCssIdent w = true) :
    objSetWeatherE s w = (objSetWeather s w, none) := by
  unfold objSetWeatherE objSetWeather
  by_cases hc : s.currentWeather = w
  · rw [if_pos hc, if_pos hc]
  · rw [if_neg hc, if_neg hc]
    by_cases hn : w = "none"
    · rw [if_neg (not_not_intro hn), if_neg (by simp [hn])]
    · rw [if_pos hn, if_pos (hw hn)]
      by_cases hov : w ∈ s.overlays
      · rw [if_pos hov, if_pos ⟨hn, hov⟩]
      · rw [if_neg hov, if_neg (fun hx => hov hx.2)]

theorem p0SetWeatherE_ne_def (s : WeatherP0) (w : String) (h : ¬ s.currentWeather = w) :
    p0SetWeatherE s w =
      if s.currentWeather ≠ "clear" ∧ validDomToken (wovl s.currentWeather) = false then
        (s, some DomErr.badToken)
      else if w ≠ "clear" ∧ validDomToken (wovl w) = false then
        ({ s with classes := if s.currentWeather ≠ "clear" then
             removeClass s.classes (wovl s.currentWeather) else s.classes },
         some DomErr.badToken)
      else
        ({ currentWeather := w,
           classes :=
             if w ≠ "clear" then
               addClass (if s.currentWeather ≠ "clear" then
                   removeClass s.classes (wovl s.currentWeather) else s.classes) (wovl w)
             else if s.currentWeather ≠ "clear" then
               removeClass s.classes (wovl s.currentWeather)
             else s.classes },
         none) := by
  conv_lhs => rw [p0SetWeatherE.eq_def]
  rw [if_neg h]

/-- Agreement of the part_000 models on a real transition: when the tokens
of the current and the requested mode are valid, the full model throws
nothing and reaches the state of the no-throw fragment. -/
theorem p0SetWeatherE_agrees_ne (s : WeatherP0) (w : String) (hc : ¬ s.currentWeather = w)
    (hcur : s.currentWeather ≠ "clear" → validDomToken (wovl s.currentWeather) = true)
    (hw : w ≠ "clear" → validDomToken (wovl w) = true) :
    p0SetWeatherE s w = (p0SetWeather s w, none) := by
  rw [p0SetWeatherE_ne_def s w hc, p0SetWeather_ne_def s w hc]
  have h1 : ¬ (s.currentWeather ≠ "clear" ∧ validDomToken (wovl s.currentWeather) = false) := by
    rintro ⟨ha, hb⟩
    exact Bool.noConfusion ((hcur ha).symm.trans hb)
  have h2 : ¬ (w ≠ "clear" ∧ validDomToken (wovl w) = false) := by
    rintro ⟨ha, hb⟩
    exact Bool.noConfusion ((hw ha).symm.trans hb)
  rw [if_neg h1, if_neg h2]

/-- Agreement of the part_000 models on every call with valid tokens. -/
theorem p0SetWeatherE_agrees (s : WeatherP0) (w : String)
    (hcur : s.currentWeather ≠ "clear" → validDomToken (wovl s.currentWeather) = true)
    (hw : w ≠ "clear" → validDomToken (wovl w) = true) :
    p0SetWeatherE s w = (p0SetWeather s w, none) := by
  by_cases hc : s.currentWeather = w
  · by_cases hw2 : w = "clear"
    · conv_lhs => rw [p0SetWeatherE.eq_def]
      rw [if_pos hc, if_neg (not_not_intro hw2), p0SetWeather_same s w hc, if_pos hw2]
    · have hccl : ¬ s.currentWeather = "clear" := by rw [hc]; exact hw2
      conv_lhs => rw [p0SetWeatherE.eq_def]
      rw [if_pos hc, if_pos hw2, p0SetWeather_same s w hc, if_neg hw2]
      exact p0SetWeatherE_agrees_ne s "clear" hccl hcur (fun hcl => absurd rfl hcl)
  · exact p0SetWeatherE_agrees_ne s w hc hcur hw

/-- C6 (counterexample): setWeather does throw for some unknown
identifiers: the digit-leading identifier 123 makes the object-literal
variant throw a SyntaxError inside document.querySelector, and the
whitespace-containing identifier foo bar makes the part_000 variant throw
an InvalidCharacterError inside classList.add, contradicting the claim
that no error is thrown for any identifier outside the known set. -/
theorem c6_counterexample :
    (objSetWeatherE ⟨["rainy"], "none", []⟩ "123").2 = some DomErr.badSelector ∧
    (p0SetWeatherE ⟨"rainy", [wovl "rainy"]⟩ "foo bar").2 = some DomErr.badToken := by
  constructor
  · decide
  · rw [p0SetWeatherE_ne_def _ _ (by decide)]
    decide

/-- C6 (amended): an unknown mode identifier that is well-formed for the
DOM APIs involved degrades gracefully: the class-based main.js controller
(whose DOM calls use only the fixed token active) never throws and leaves
no effect active; the object-literal controller throws nothing for a
valid CSS identifier and activates nothing; the part_000 controller
throws nothing for a whitespace-free identifier and keeps no class of any
other mode. A malformed unknown identifier instead makes the underlying
DOM call throw - a SyntaxError in querySelector resp. an
InvalidCharacterError in classList.add - still leaving no known effect
active (the object-literal variant has already deactivated every overlay,
the part_000 variant has already removed the previous class). -/
theorem c6_amended_unknown :
    (∀ (s : WeatherCtl) (u : String), wInv s → u ∉ s.eff →
      (setWeather s u).active = []) ∧
    (∀ (s : WeatherObj) (u : String), objInv s → u ∉ s.overlays →
      validCssIdent u = true →
      (objSetWeatherE s u).2 = none ∧ (objSetWeatherE s u).1.active = []) ∧
    (∀ (s : WeatherObj) (u : String), s.currentWeather ≠ u → u ≠ "none" →
      validCssIdent u = false →
      objSetWeatherE s u = ({ s with active := [] }, some DomErr.badSelector)) ∧
    (∀ (s : WeatherP0) (u : String), p0Inv s →
      (s.currentWeather ≠ "clear" → validDomToken (wovl s.currentWeather) = true) →
      validDomToken (wovl u) = true →
      (p0SetWeatherE s u).2 = none ∧
      ∀ m, m ≠ u → wovl m ∉ (p0SetWeatherE s u).1.classes) ∧
    (∀ (s : WeatherP0) (u : String),
      (s.currentWeather ≠ "clear" → validDomToken (wovl s.currentWeather) = true) →
      s.currentWeather ≠ u → u ≠ "clear" → validDomToken (wovl u) = false →
      p0SetWeatherE s u =
        ({ s with
            classes :=
              if s.currentWeather ≠ "clear" then
                removeClass s.classes (wovl s.currentWeather)
              else s.classes },
         some DomErr.badToken)) := by
  refine ⟨setWeather_unknown_graceful.1, ?_, ?_, ?_, ?_⟩
  · intro s u hinv hu hval
    have hag : objSetWeatherE s u = (objSetWeather s u, none) :=
      objSetWeatherE_agrees s u (fun _ => hval)
    rw [hag]
    exact ⟨rfl, setWeather_unknown_graceful.2.1 s u hinv hu⟩
  · intro s u hne hn hbad
    unfold objSetWeatherE
    rw [if_neg hne, if_pos hn, if_neg (fun h => Bool.noConfusion (hbad.symm.trans h))]
  · intro s u hinv hcur hval
    have hag : p0SetWeatherE s u = (p0SetWeather s u, none) :=
      p0SetWeatherE_agrees s u hcur (fun _ => hval)
    rw [hag]
    exact ⟨rfl, setWeather_unknown_graceful.2.2 s u hinv⟩
  · intro s u hcur hne hu hbad
    rw [p0SetWeatherE_ne_def s u hne]
    have h1 : ¬ (s.currentWeather ≠ "clear" ∧ validDomToken (wovl s.currentWeather) = false) := by
      rintro ⟨ha, hb⟩
      exact Bool.noConfusion ((hcur ha).symm.trans hb)
    rw [if_neg h1, if_pos ⟨hu, hbad⟩]

/-- C6 (witness): the well-formed unknown identifier storm throws nothing
and activates nothing in the object-literal controller. -/
theorem c6_witness :
    (objSetWeatherE ⟨["rainy"], "rainy", ["rainy"]⟩ "storm").2 = none ∧
    (objSetWeatherE ⟨["rainy"], "rainy", ["rainy"]⟩ "storm").1.active = [] :=
  c6_amended_unknown.2.1 ⟨["rainy"], "rainy", ["rainy"]⟩ "storm"
    (by
      intro k hk
      rw [List.mem_singleton] at hk
      subst hk
      exact ⟨rfl, List.mem_singleton.2 rfl⟩)
    (by decide) (by decide)

/-- C10 (counterexample): the constructor guard is not the only throwing
path at the public interface: the IframePreviewController constructor
succeeds on a form without a url input, yet the very next submit throws a
TypeError reading this.input.value; and the part_000 setWeather throws an
InvalidCharacterError for the identifier a b. -/
theorem c10_counterexample :
    iframeCtor (some "url-form") (some "preview-iframe") none true =
      Except.ok ⟨"url-form", none, "preview-iframe", true⟩ ∧
    (∃ e, submitHandler ⟨"url-form", none, "preview-iframe", true⟩
      ⟨"about:blank", false⟩ "x" = Except.error e) ∧
    (p0SetWeatherE ⟨"clear", []⟩ "a b").2 = some DomErr.badToken := by
  refine ⟨rfl, ⟨"TypeError: this.input is null", rfl⟩, ?_⟩
  rw [p0SetWeatherE_ne_def _ _ (by decide)]
  decide

/-- C10 (amended): both constructors throw exactly when a required element
argument (overlay, controls, form or iframe) is missing, and a
successfully constructed instance stores the supplied elements; this is
however not the only throwing path at the public interface: the submit
handler throws a TypeError exactly when the form holds no url input, and
the part_000 setWeather throws an InvalidCharacterError for a
whitespace-containing mode identifier. -/
theorem c10_amended_throwing (o c : Option String) (eff ia : List String)
    (f i inp : Option String) (cb : Bool) (st : PreviewState) (v : String) :
    ((∃ e, weatherCtor o c eff ia = Except.error e) ↔ (o = none ∨ c = none)) ∧
    (∀ inst, weatherCtor o c eff ia = Except.ok inst →
      o = some inst.overlay ∧ c = some inst.controls) ∧
    ((∃ e, iframeCtor f i inp cb = Except.error e) ↔ (f = none ∨ i = none)) ∧
    (∀ inst, iframeCtor f i inp cb = Except.ok inst →
      f = some inst.form ∧ i = some inst.iframe) ∧
    (∀ inst : IframeCtl, (∃ e, submitHandler inst st v = Except.error e) ↔
      inst.input = none) ∧
    (∀ (s : WeatherP0) (w : String), s.currentWeather ≠ w → w ≠ "clear" →
      validDomToken (wovl w) = false →
      (p0SetWeatherE s w).2 = some DomErr.badToken) := by
  refine ⟨?_, ?_, ?_, ?_, ?_, ?_⟩
  · cases o <;> cases c <;> simp [weatherCtor]
  · intro inst h
    cases o with
    | none => simp [weatherCtor] at h
    | some ov =>
      cases c with
      | none => simp [weatherCtor] at h
      | some ctl =>
        simp only [weatherCtor, Except.ok.injEq] at h
        rw [← h]
        exact ⟨rfl, rfl⟩
  · cases f <;> cases i <;> simp [iframeCtor]
  · intro inst h
    cases f with
    | none => simp [iframeCtor] at h
    | some fv =>
      cases i with
      | none => simp [iframeCtor] at h
      | some iv =>
        simp only [iframeCtor, Except.ok.injEq] at h
        rw [← h]
        exact ⟨rfl, rfl⟩
  · intro inst
    cases hinp : inst.input with
    | none => simp [submitHandler, hinp]
    | some v2 => simp [submitHandler, hinp]
  · intro s w hne hw hbad
    rw [p0SetWeatherE_ne_def s w hne]
    by_cases h1 : s.currentWeather ≠ "clear" ∧ validDomToken (wovl s.currentWeather) = false
    · rw [if_pos h1]
    · rw [if_neg h1, if_pos ⟨hw, hbad⟩]

/-- C10 (witness): a missing overlay is rejected by the constructor, and
an instance without a url input throws on submit. -/
theorem c10_witness :
    (∃ e, weatherCtor none (some "controls") [] [] = Except.error e) ∧
    (∃ e, submitHandler ⟨"url-form", none, "preview-iframe", true⟩
      ⟨"about:blank", false⟩ "" = Except.error e) :=
  ⟨(c10_amended_throwing none (some "controls") [] [] (some "f") (some "i") none
      false ⟨"about:blank", false⟩ "").1.mpr (Or.inl rfl),
   ((c10_amended_throwing none (some "controls") [] [] (some "f") (some "i") none
      false ⟨"about:blank", false⟩ "").2.2.2.2.1
      ⟨"url-form", none, "preview-iframe", true⟩).mpr rfl⟩
